import Mathlib

/-!
# Default SecurityContextConstraints diagnostic, and the image API group

A shallow embedding of `pkg/oc/cli/admin/diagnostics/diagnostics/cluster/scc.go`
(`SCC.CanRun`, `SCC.Check`) and the properties of its finding sequence, and of the
group-qualifying helpers of `pkg/image/apis/image/register.go`.

The collaborators the diagnostic calls but does not own (the reconciler's
`ChangedSCCs`, the SCC client's `Get`, `util.UserCan`, and two constants of other
packages) are parameters of the embedding: every theorem quantifies over them.
Within one run each collaborator answers as a function of its arguments.
-/

namespace ImageAPI

/-! ## The schema types of the apimachinery package -/

/-- Modelled from the spec: `schema.GroupVersion` of the apimachinery package, which
is not part of the sources: an API group and a version. -/
structure GroupVersion where
  Group : String
  Version : String
deriving DecidableEq, Repr

/-- Modelled from the spec: `schema.GroupVersionKind`, a kind qualified by group
and version. -/
structure GroupVersionKind where
  Group : String
  Version : String
  Kind : String
deriving DecidableEq, Repr

/-- Modelled from the spec: `schema.GroupVersionResource`, a resource qualified by
group and version. -/
structure GroupVersionResource where
  Group : String
  Version : String
  Resource : String
deriving DecidableEq, Repr

/-- Modelled from the spec: `schema.GroupKind`, the group-qualified pair of a
kind. -/
structure GroupKind where
  Group : String
  Kind : String
deriving DecidableEq, Repr

/-- Modelled from the spec: `schema.GroupResource`, the group-qualified pair of a
resource. -/
structure GroupResource where
  Group : String
  Resource : String
deriving DecidableEq, Repr

/-- Modelled from the spec: `GroupVersion.WithKind`, which qualifies a kind with the
group and the version of the receiver and leaves the kind as given. -/
def GroupVersion.WithKind (gv : GroupVersion) (kind : String) : GroupVersionKind :=
  { Group := gv.Group, Version := gv.Version, Kind := kind }

/-- Modelled from the spec: `GroupVersion.WithResource`, which qualifies a resource
with the group and the version of the receiver and leaves the resource as given. -/
def GroupVersion.WithResource (gv : GroupVersion) (resource : String) :
    GroupVersionResource :=
  { Group := gv.Group, Version := gv.Version, Resource := resource }

/-- Modelled from the spec: `GroupVersionKind.GroupKind`, which drops the version. -/
def GroupVersionKind.GroupKind (gvk : GroupVersionKind) : ImageAPI.GroupKind :=
  { Group := gvk.Group, Kind := gvk.Kind }

/-- Modelled from the spec: `GroupVersionResource.GroupResource`, which drops the
version. -/
def GroupVersionResource.GroupResource (gvr : GroupVersionResource) :
    ImageAPI.GroupResource :=
  { Group := gvr.Group, Resource := gvr.Resource }

/-- Modelled from the spec: the constant `runtime.APIVersionInternal`, the name of
the internal version. -/
def APIVersionInternal : String := "__internal"

/-! ## `register.go` -/

/-- The constant `GroupName`. -/
def GroupName : String := "image.openshift.io"

/-- The constant `LegacyGroupName`. -/
def LegacyGroupName : String := ""

/-- The variable `SchemeGroupVersion`. -/
def SchemeGroupVersion : GroupVersion :=
  { Group := GroupName, Version := APIVersionInternal }

/-- The variable `LegacySchemeGroupVersion`. -/
def LegacySchemeGroupVersion : GroupVersion :=
  { Group := LegacyGroupName, Version := APIVersionInternal }

/-- The function `Kind`: takes an unqualified kind and returns a group-qualified
GroupKind. -/
def Kind (kind : String) : GroupKind :=
  (SchemeGroupVersion.WithKind kind).GroupKind

/-- The function `LegacyKind`. -/
def LegacyKind (kind : String) : GroupKind :=
  (LegacySchemeGroupVersion.WithKind kind).GroupKind

/-- The function `Resource`: takes an unqualified resource and returns a
group-qualified GroupResource. -/
def Resource (resource : String) : GroupResource :=
  (SchemeGroupVersion.WithResource resource).GroupResource

/-- The function `LegacyResource`. -/
def LegacyResource (resource : String) : GroupResource :=
  (LegacySchemeGroupVersion.WithResource resource).GroupResource

end ImageAPI

namespace SCCDiag

/-! ## Errors -/

/-- A Go `error` value that is not nil: the text `err.Error()` returns (what `%v`
prints) and the API status reason the error carries. A nil error is `none` in
`Option GoError`. -/
structure GoError where
  text : String
  reason : String
deriving DecidableEq, Repr

/-- The status reason `metav1.StatusReasonNotFound`. -/
def StatusReasonNotFound : String := "NotFound"

/-- Modelled from the spec: `kerrs.IsNotFound` of the apimachinery package, the
"distinguishable NotFound condition" of `GetPolicyObject`. It is false for a nil
error and true exactly for an error whose status reason is NotFound. -/
def IsNotFound (err : Option GoError) : Bool :=
  match err with
  | none => false
  | some e => e.reason == StatusReasonNotFound

/-- The call `fmt.Errorf(text)` with no formatting verbs: a plain error, with no
API status reason. -/
def Errorf (text : String) : GoError :=
  { text := text, reason := "" }

/-! ## The result accumulator -/

/-- Severity of a finding. -/
inductive Severity where
  | ERROR
  | WARNING
  | DEBUG
deriving DecidableEq, Repr

/-- One finding: its severity, its code, the cause attached to it (nil for none)
and its message. -/
structure Finding where
  severity : Severity
  code : String
  cause : Option GoError
  message : String
deriving DecidableEq, Repr

/-- Modelled from the spec: the result accumulator `types.DiagnosticResult`, whose
package is not part of the sources: an append-only sequence of findings, tagged
with the name of the diagnostic that owns it. -/
structure DiagnosticResult where
  origin : String
  findings : List Finding
deriving DecidableEq, Repr

/-- Modelled from the spec: `types.NewDiagnosticResult`, an accumulator with no
finding yet. -/
def NewDiagnosticResult (origin : String) : DiagnosticResult :=
  { origin := origin, findings := [] }

/-- Modelled from the spec: `AddError(code, cause, message)` appends one ERROR. -/
def DiagnosticResult.Error (r : DiagnosticResult) (id : String) (err : Option GoError)
    (text : String) : DiagnosticResult :=
  { r with findings := r.findings ++ [Finding.mk Severity.ERROR id err text] }

/-- Modelled from the spec: `AddWarning(code, cause, message)` appends one WARNING. -/
def DiagnosticResult.Warn (r : DiagnosticResult) (id : String) (err : Option GoError)
    (text : String) : DiagnosticResult :=
  { r with findings := r.findings ++ [Finding.mk Severity.WARNING id err text] }

/-- Modelled from the spec: `AddDebug(code, message)` appends one DEBUG, which
has no cause. -/
def DiagnosticResult.Debug (r : DiagnosticResult) (id : String) (text : String) :
    DiagnosticResult :=
  { r with findings := r.findings ++ [Finding.mk Severity.DEBUG id none text] }

/-! ## Cluster objects and clients -/

/-- A SecurityContextConstraints object. `Check` reads its `Name` only; the other
fields stand for its content. -/
structure SecurityContextConstraints where
  Name : String
  Users : List String := []
  Groups : List String := []
deriving DecidableEq, Repr

/-- The options `metav1.GetOptions`. -/
structure GetOptions where
  ResourceVersion : String := ""
deriving DecidableEq, Repr

/-- The part of `securitytypedclient.SecurityContextConstraintsInterface` the
diagnostic calls: `Get(name, options)` returns the object (nil on failure) and an
error (nil on success). -/
structure SecurityContextConstraintsInterface where
  Get : String → GetOptions → Option SecurityContextConstraints × Option GoError

/-- An access-review client (`SelfSubjectAccessReviewsGetter`), told apart by an
identifier only: the diagnostic hands it to `util.UserCan` and never calls it. -/
structure SelfSubjectAccessReviewsGetter where
  id : Nat
deriving DecidableEq, Repr

/-- The struct `authorization.ResourceAttributes`; a field that a literal does not
set holds the empty string. -/
structure ResourceAttributes where
  Namespace : String := ""
  Verb : String := ""
  Group : String := ""
  Version : String := ""
  Resource : String := ""
  Subresource : String := ""
  Name : String := ""
deriving DecidableEq, Repr

/-- Where the reconciler writes its report. -/
inductive Writer where
  | Discard
  | Stdout
deriving DecidableEq, Repr

/-- The struct `policycmd.ReconcileSCCOptions`, with the fields `Check` sets. -/
structure ReconcileSCCOptions where
  Confirmed : Bool
  Union : Bool
  Out : Writer
  SCCClient : SecurityContextConstraintsInterface
  InfraNamespace : String

/-- What the diagnostic takes from other packages: the reconciler
(`ReconcileSCCOptions.ChangedSCCs`, returning the changed objects and an error),
the capability probe `util.UserCan`, and the constants
`bootstrappolicy.DefaultOpenShiftInfraNamespace` and `securityapi.GroupName`. -/
structure Collaborators where
  ChangedSCCs : ReconcileSCCOptions → List SecurityContextConstraints × Option GoError
  UserCan : SelfSubjectAccessReviewsGetter → ResourceAttributes → Bool × Option GoError
  DefaultOpenShiftInfraNamespace : String
  GroupName : String

/-- The diagnostic: `type SCC struct`. A nil `SARClient` is `none`. -/
structure SCC where
  SCCClient : SecurityContextConstraintsInterface
  SARClient : Option SelfSubjectAccessReviewsGetter

/-! ## A Go `map[string]bool` -/

/-- A `map[string]bool`, read through its lookup: a key that was never set reads
as the zero value `false`. -/
def NameMap : Type := String → Bool

/-- The empty map literal. -/
def NameMap.empty : NameMap := fun _ => false

/-- The assignment `m[k] = v`. -/
def NameMap.set (m : NameMap) (k : String) (v : Bool) : NameMap :=
  fun k2 => if k2 = k then v else m k2

/-- The lookup `m[k]`. -/
def NameMap.get (m : NameMap) (k : String) : Bool := m k

/-! ## The diagnostic -/

/-- The constant `SccName`. -/
def SccName : String := "SecurityContextConstraints"

/-- The method `SCC.Name`. -/
def SCC.Name (_d : SCC) : String := SccName

/-- The method `SCC.Description`. -/
def SCC.Description (_d : SCC) : String :=
  "Check that the default SecurityContextConstraints are present and contain the expected permissions"

/-- The method `SCC.Requirements`: a client is required, a host is not. -/
def SCC.Requirements (_d : SCC) : Bool × Bool := (true, false)

/-- The method `SCC.CanRun`. -/
def SCC.CanRun (c : Collaborators) (d : SCC) : Bool × Option GoError :=
  match d.SARClient with
  | none => (false, some (Errorf "must have client.SubjectAccessReviews"))
  | some sar =>
    c.UserCan sar { Verb := "list", Group := c.GroupName, Resource := "securitycontextconstraints" }

/-- The message of CSD1000. -/
def msgInspect (err : GoError) : String :=
  "Error inspecting SCCs: " ++ err.text

/-- The message of CSD1001. -/
def msgMissing (name : String) : String :=
  "scc/" ++ name ++ " is missing.\n\nUse the `oc adm policy reconcile-sccs` command to recreate sccs."

/-- The message of CSD1002. -/
def msgUnableToGet (name : String) (err : GoError) : String :=
  "Unable to get scc/" ++ name ++ ": " ++ err.text

/-- The message of CSD1003. -/
def msgWillReconcile (name : String) : String :=
  "scc/" ++ name ++ " will be reconciled. Use the `oc adm policy reconcile-sccs` command to check sccs."

/-- The message of CSD1004. -/
def msgNoMatch (name : String) : String :=
  "scc/" ++ name ++ " does not match defaults. Use the `oc adm policy reconcile-sccs --additive-only=false` command to check sccs."

/-- The options of the first reconcile call (the struct literal in `Check`). -/
def SCC.reconcileOptions (c : Collaborators) (d : SCC) : ReconcileSCCOptions :=
  { Confirmed := false
    Union := true
    Out := Writer.Discard
    SCCClient := d.SCCClient
    InfraNamespace := c.DefaultOpenShiftInfraNamespace }

/-- One iteration of the first loop of `Check`, on the accumulator and the map
`changedSCCNames`. Each `continue` leaves the iteration with the map untouched. -/
def SCC.unionStep (d : SCC) (st : DiagnosticResult × NameMap)
    (changedSCC : SecurityContextConstraints) : DiagnosticResult × NameMap :=
  let err := (d.SCCClient.Get changedSCC.Name {}).2
  if IsNotFound err then
    (st.1.Error "CSD1001" none (msgMissing changedSCC.Name), st.2)
  else
    match err with
    | some e => (st.1.Error "CSD1002" (some e) (msgUnableToGet changedSCC.Name e), st.2)
    | none =>
      (st.1.Warn "CSD1003" none (msgWillReconcile changedSCC.Name),
        st.2.set changedSCC.Name true)

/-- One iteration of the second loop of `Check`. -/
def SCC.replaceStep (changedSCCNames : NameMap) (r : DiagnosticResult)
    (changedSCC : SecurityContextConstraints) : DiagnosticResult :=
  if !changedSCCNames.get changedSCC.Name then
    r.Debug "CSD1004" (msgNoMatch changedSCC.Name)
  else
    r

/-- The method `SCC.Check`. -/
def SCC.Check (c : Collaborators) (d : SCC) : DiagnosticResult :=
  let r := NewDiagnosticResult SccName
  let reconcileOptions := d.reconcileOptions c
  let res := c.ChangedSCCs reconcileOptions
  match res.2 with
  | some err => r.Error "CSD1000" (some err) (msgInspect err)
  | none =>
    let st := res.1.foldl d.unionStep (r, NameMap.empty)
    let reconcileOptions := { reconcileOptions with Union := false }
    let res := c.ChangedSCCs reconcileOptions
    match res.2 with
    | some err => st.1.Error "CSD1000" (some err) (msgInspect err)
    | none => res.1.foldl (SCC.replaceStep st.2) st.1

/-! ## The specified classification -/

/-- Steps 2b to 2d of the specified algorithm, in the spec's words: a fetch that
fails with a not-found condition gives ERROR CSD1001 (no cause), a fetch that fails
with any other error gives ERROR CSD1002 carrying the cause, and otherwise the
object exists and gives WARNING CSD1003. `fetchErr` is the error of the fetch of
`name`. -/
def specClassify (fetchErr : Option GoError) (name : String) : Finding :=
  match fetchErr with
  | none => Finding.mk Severity.WARNING "CSD1003" none (msgWillReconcile name)
  | some e =>
    if e.reason = StatusReasonNotFound then
      Finding.mk Severity.ERROR "CSD1001" none (msgMissing name)
    else
      Finding.mk Severity.ERROR "CSD1002" (some e) (msgUnableToGet name e)

/-- Step 4 of the specified algorithm: the DEBUG finding CSD1004 for a name. -/
def specDebug (name : String) : Finding :=
  Finding.mk Severity.DEBUG "CSD1004" none (msgNoMatch name)

/-- A finding carries one of the per-object codes of the UNION pass. -/
def perObjectCode (f : Finding) : Bool :=
  f.code == "CSD1001" || f.code == "CSD1002" || f.code == "CSD1003"

/-- A finding is an ERROR or a WARNING. -/
def errorOrWarning (f : Finding) : Bool :=
  f.severity == Severity.ERROR || f.severity == Severity.WARNING

/-- The error of the fetch `d.SCCClient.Get(name, metav1.GetOptions{})`. -/
def SCC.fetchErr (d : SCC) (name : String) : Option GoError :=
  (d.SCCClient.Get name {}).2

/-- The options of the second reconcile call: the first call's options after the
assignment `reconcileOptions.Union = false`. -/
def SCC.replaceOptions (c : Collaborators) (d : SCC) : ReconcileSCCOptions :=
  { d.reconcileOptions c with Union := false }

/-- The map `changedSCCNames` as the first loop of `Check` leaves it, when the
first reconcile call returned the list `L`. -/
def SCC.seenNames (d : SCC) (L : List SecurityContextConstraints) : NameMap :=
  (L.foldl d.unionStep (NewDiagnosticResult SccName, NameMap.empty)).2

/-- The method `SCC.Check` with the reconciler's call log made explicit: next to
the result it returns the options of each `ChangedSCCs()` call, in call order. The
second call is made on the same options after `reconcileOptions.Union = false`. -/
def SCC.CheckTraced (c : Collaborators) (d : SCC) :
    List ReconcileSCCOptions × DiagnosticResult :=
  let r := NewDiagnosticResult SccName
  let reconcileOptions := d.reconcileOptions c
  let res := c.ChangedSCCs reconcileOptions
  let calls := [reconcileOptions]
  match res.2 with
  | some err => (calls, r.Error "CSD1000" (some err) (msgInspect err))
  | none =>
    let st := res.1.foldl d.unionStep (r, NameMap.empty)
    let reconcileOptions := { reconcileOptions with Union := false }
    let res := c.ChangedSCCs reconcileOptions
    let calls := calls ++ [reconcileOptions]
    match res.2 with
    | some err => (calls, st.1.Error "CSD1000" (some err) (msgInspect err))
    | none => (calls, res.1.foldl (SCC.replaceStep st.2) st.1)

/-! ## Concrete clusters -/

/-- The error a fetch returns for an object that does not exist. -/
def notFoundError (name : String) : GoError :=
  { text := "securitycontextconstraints \"" ++ name ++ "\" not found", reason := "NotFound" }

/-- The error of a fetch that timed out. -/
def timeoutError : GoError :=
  { text := "request timed out", reason := "Timeout" }

/-- A cluster in which `privileged` and `B` do not exist, the fetch of `anyuid`
times out, and every other object exists. -/
def exampleClient : SecurityContextConstraintsInterface :=
  { Get := fun name _ =>
      if name = "privileged" ∨ name = "B" then (none, some (notFoundError name))
      else if name = "anyuid" then (none, some timeoutError)
      else (some { Name := name }, none) }

/-- A diagnostic on `exampleClient`, with an access-review client. -/
def exampleSCC : SCC :=
  { SCCClient := exampleClient, SARClient := some { id := 1 } }

/-- Collaborators whose reconciler answers `u` under Union and `r` otherwise, and
whose capability probe answers `probe`. -/
def exampleCollaborators (u r : List SecurityContextConstraints × Option GoError)
    (probe : Bool × Option GoError) : Collaborators :=
  { ChangedSCCs := fun o => if o.Union then u else r
    UserCan := fun _ _ => probe
    DefaultOpenShiftInfraNamespace := "openshift-infra"
    GroupName := "security.openshift.io" }

/-- A second client for the same cluster: it fails on the same names with the same
errors as `exampleClient`, and returns the objects that exist with one user. -/
def exampleClientB : SecurityContextConstraintsInterface :=
  { Get := fun name _ =>
      if name = "privileged" ∨ name = "B" then (none, some (notFoundError name))
      else if name = "anyuid" then (none, some timeoutError)
      else (some { Name := name, Users := ["admin"] }, none) }

/-- A diagnostic on `exampleClientB`, without an access-review client. -/
def exampleSCCB : SCC :=
  { SCCClient := exampleClientB, SARClient := none }

/-! ## The two loops -/

theorem unionStep_findings (d : SCC) (st : DiagnosticResult × NameMap)
    (s : SecurityContextConstraints) :
    (d.unionStep st s).1.findings
      = st.1.findings ++ [specClassify (d.fetchErr s.Name) s.Name] := by
  unfold SCC.unionStep SCC.fetchErr specClassify IsNotFound
  cases h : (d.SCCClient.Get s.Name {}).2 with
  | none => simp [DiagnosticResult.Warn]
  | some e =>
    by_cases hr : e.reason = StatusReasonNotFound
    · simp [hr, DiagnosticResult.Error]
    · simp [hr, DiagnosticResult.Error]

theorem unionStep_names (d : SCC) (st : DiagnosticResult × NameMap)
    (s : SecurityContextConstraints) :
    (d.unionStep st s).2
      = if d.fetchErr s.Name = none then st.2.set s.Name true else st.2 := by
  unfold SCC.unionStep SCC.fetchErr IsNotFound
  cases h : (d.SCCClient.Get s.Name {}).2 with
  | none => simp
  | some e =>
    by_cases hr : e.reason = StatusReasonNotFound
    · simp [hr]
    · simp [hr]

theorem unionLoop_findings (d : SCC) (L : List SecurityContextConstraints) :
    ∀ st : DiagnosticResult × NameMap,
      (L.foldl d.unionStep st).1.findings
        = st.1.findings ++ L.map (fun s => specClassify (d.fetchErr s.Name) s.Name) := by
  induction L with
  | nil => intro st; simp
  | cons s L ih =>
    intro st
    rw [List.foldl_cons, ih, unionStep_findings]
    simp

/-- The map after the first loop holds exactly the keys it held before and the
names of the entries whose fetch succeeded. -/
theorem unionLoop_names (d : SCC) (L : List SecurityContextConstraints) :
    ∀ (st : DiagnosticResult × NameMap) (k : String),
      (L.foldl d.unionStep st).2.get k
        = (st.2.get k || L.any (fun s => decide (s.Name = k) && (d.fetchErr s.Name).isNone)) := by
  induction L with
  | nil => intro st k; simp
  | cons s L ih =>
    intro st k
    rw [List.foldl_cons, ih, unionStep_names]
    cases h : d.fetchErr s.Name with
    | none =>
      by_cases hk : k = s.Name
      · subst hk; simp [NameMap.get, NameMap.set, h]
      · have hk2 : ¬ s.Name = k := fun e => hk e.symm
        simp [NameMap.get, NameMap.set, hk, hk2]
    | some e => simp [h]

theorem replaceStep_findings (m : NameMap) (r : DiagnosticResult)
    (s : SecurityContextConstraints) :
    (SCC.replaceStep m r s).findings
      = r.findings ++ (if m.get s.Name then [] else [specDebug s.Name]) := by
  unfold SCC.replaceStep
  cases h : m.get s.Name <;> simp [DiagnosticResult.Debug, specDebug]

theorem replaceLoop_findings (m : NameMap) (R : List SecurityContextConstraints) :
    ∀ r : DiagnosticResult,
      (R.foldl (SCC.replaceStep m) r).findings
        = r.findings
          ++ (R.filter (fun s => !m.get s.Name)).map (fun s => specDebug s.Name) := by
  induction R with
  | nil => intro r; simp
  | cons s R ih =>
    intro r
    rw [List.foldl_cons, ih, replaceStep_findings]
    cases h : m.get s.Name <;> simp [h]

/-! ## The three outcomes of `Check` -/

theorem check_union_failed (c : Collaborators) (d : SCC) (e : GoError)
    (h : (c.ChangedSCCs (d.reconcileOptions c)).2 = some e) :
    (d.Check c).findings = [Finding.mk Severity.ERROR "CSD1000" (some e) (msgInspect e)] := by
  unfold SCC.Check
  simp [h, DiagnosticResult.Error, NewDiagnosticResult]

theorem check_replace_failed (c : Collaborators) (d : SCC)
    (L : List SecurityContextConstraints) (e : GoError)
    (hU : c.ChangedSCCs (d.reconcileOptions c) = (L, none))
    (hR : (c.ChangedSCCs (d.replaceOptions c)).2 = some e) :
    (d.Check c).findings
      = L.map (fun s => specClassify (d.fetchErr s.Name) s.Name)
        ++ [Finding.mk Severity.ERROR "CSD1000" (some e) (msgInspect e)] := by
  unfold SCC.replaceOptions at hR
  unfold SCC.Check
  simp [hU, hR, DiagnosticResult.Error, unionLoop_findings, NewDiagnosticResult]

theorem check_both_ok (c : Collaborators) (d : SCC)
    (L R : List SecurityContextConstraints)
    (hU : c.ChangedSCCs (d.reconcileOptions c) = (L, none))
    (hR : c.ChangedSCCs (d.replaceOptions c) = (R, none)) :
    (d.Check c).findings
      = L.map (fun s => specClassify (d.fetchErr s.Name) s.Name)
        ++ (R.filter (fun s => !(d.seenNames L).get s.Name)).map (fun s => specDebug s.Name) := by
  unfold SCC.replaceOptions at hR
  unfold SCC.Check
  simp [hU, hR, replaceLoop_findings, unionLoop_findings, NewDiagnosticResult, SCC.seenNames]

/-! ## Facts about the findings themselves -/

theorem specClassify_perObject (err : Option GoError) (name : String) :
    perObjectCode (specClassify err name) = true
      ∧ errorOrWarning (specClassify err name) = true := by
  unfold specClassify
  cases err with
  | none => exact ⟨rfl, rfl⟩
  | some e =>
    by_cases hr : e.reason = StatusReasonNotFound
    · simp only [hr, if_true]; exact ⟨rfl, rfl⟩
    · simp only [hr, if_false]; exact ⟨rfl, rfl⟩

theorem specClassify_names (err : Option GoError) (name : String) :
    List.IsInfix ("scc/" ++ name).data (specClassify err name).message.data := by
  unfold specClassify
  cases err with
  | none =>
    simp only [msgWillReconcile, String.data_append]
    exact (List.prefix_append _ _).isInfix
  | some e =>
    by_cases hr : e.reason = StatusReasonNotFound
    · simp only [hr, if_true, msgMissing, String.data_append]
      exact (List.prefix_append _ _).isInfix
    · simp only [hr, if_false, msgUnableToGet, String.data_append]
      refine ⟨"Unable to get ".data, (": " ++ e.text).data, ?_⟩
      simp [String.data_append]

theorem msgNoMatch_injective (a b : String) (h : msgNoMatch a = msgNoMatch b) : a = b := by
  unfold msgNoMatch at h
  have h2 := congrArg String.data h
  simp only [String.data_append, List.append_assoc] at h2
  exact String.ext (List.append_cancel_right (List.append_cancel_left h2))

/-- After a successful first reconcile call the findings are the classifications
of its entries, in order, followed by findings that carry no per-object code. -/
theorem check_union_ok_shape (c : Collaborators) (d : SCC)
    (L : List SecurityContextConstraints)
    (hU : c.ChangedSCCs (d.reconcileOptions c) = (L, none)) :
    ∃ rest : List Finding,
      (d.Check c).findings
          = L.map (fun s => specClassify (d.fetchErr s.Name) s.Name) ++ rest
        ∧ ∀ f ∈ rest, perObjectCode f = false := by
  cases hR : c.ChangedSCCs (d.replaceOptions c) with
  | mk R err =>
    cases err with
    | none =>
      refine ⟨_, check_both_ok c d L R hU hR, ?_⟩
      intro f hf
      rw [List.mem_map] at hf
      obtain ⟨s, _, rfl⟩ := hf
      rfl
    | some e =>
      refine ⟨_, check_replace_failed c d L e hU (by rw [hR]), ?_⟩
      intro f hf
      rw [List.mem_singleton] at hf
      subst hf
      rfl

theorem specDebug_eq_iff (a b : String) : specDebug a = specDebug b ↔ a = b := by
  constructor
  · intro h
    have hm : msgNoMatch a = msgNoMatch b := congrArg Finding.message h
    exact msgNoMatch_injective a b hm
  · intro h; rw [h]

theorem specClassify_ne_specDebug (err : Option GoError) (a b : String) :
    specClassify err a ≠ specDebug b := by
  intro h
  have h1 := (specClassify_perObject err a).1
  rw [h] at h1
  exact Bool.false_ne_true h1

/-- Among the DEBUG findings of the second loop, those for a name the map does not
hold are as many as the entries of that name. -/
theorem replaceLoop_count (m : NameMap) (n : String) (hn : m.get n = false)
    (R : List SecurityContextConstraints) :
    (((R.filter (fun s => !m.get s.Name)).map (fun s => specDebug s.Name)).filter
        (fun f => decide (f = specDebug n))).length
      = (R.filter (fun s => decide (s.Name = n))).length := by
  induction R with
  | nil => rfl
  | cons s R ih =>
    by_cases hs : s.Name = n
    · simp [List.filter_cons, hn, hs, ih]
    · cases hm : m.get s.Name with
      | true => simp [List.filter_cons, hm, hs, ih]
      | false => simp [List.filter_cons, hm, hs, ih, specDebug_eq_iff]

/-- A name that no entry of the first list carries is not in the map the first loop
leaves. -/
theorem seenNames_of_not_mem (d : SCC) (L : List SecurityContextConstraints) (n : String)
    (hn : ∀ s ∈ L, s.Name ≠ n) : (d.seenNames L).get n = false := by
  unfold SCC.seenNames
  rw [unionLoop_names]
  simp only [NameMap.get, NameMap.empty, Bool.false_or]
  rw [List.any_eq_false]
  intro s hs
  simp [hn s hs]

/-! ## The UNION pass -/

/-- C1: when the UNION-pass reconcile succeeds with the list `L`, the finding at
position `i` of `Check`, for every `i` below the length of `L`, is an ERROR or a
WARNING with code CSD1001, CSD1002 or CSD1003 whose message contains "scc/" followed
by the name of the `i`-th entry; no finding at a later position has one of these
codes; and the findings with these codes number exactly the length of `L`. -/
theorem union_pass_one_finding_per_entry (c : Collaborators) (d : SCC)
    (L : List SecurityContextConstraints)
    (hU : c.ChangedSCCs (d.reconcileOptions c) = (L, none)) :
    (∀ (i : Nat) (hi : i < L.length), ∃ f : Finding,
        (d.Check c).findings[i]? = some f
          ∧ (f.severity = Severity.ERROR ∨ f.severity = Severity.WARNING)
          ∧ perObjectCode f = true
          ∧ List.IsInfix ("scc/" ++ (L[i]).Name).data f.message.data)
      ∧ (∀ (i : Nat) (f : Finding), (d.Check c).findings[i]? = some f →
          perObjectCode f = true → i < L.length)
      ∧ ((d.Check c).findings.filter
          (fun f => perObjectCode f && errorOrWarning f)).length = L.length := by
  obtain ⟨rest, hfs, hrest⟩ := check_union_ok_shape c d L hU
  rw [hfs]
  refine ⟨?_, ?_, ?_⟩
  · intro i hi
    refine ⟨specClassify (d.fetchErr (L[i]).Name) (L[i]).Name, ?_, ?_, ?_, ?_⟩
    · rw [List.getElem?_append_left (by simpa using hi)]
      simp [List.getElem?_map, List.getElem?_eq_getElem hi]
    · have h := (specClassify_perObject (d.fetchErr (L[i]).Name) (L[i]).Name).2
      unfold errorOrWarning at h
      simpa using h
    · exact (specClassify_perObject _ _).1
    · exact specClassify_names _ _
  · intro i f hf hcode
    by_contra hlt
    have hle : (L.map (fun s => specClassify (d.fetchErr s.Name) s.Name)).length ≤ i := by
      simpa using Nat.le_of_not_lt hlt
    rw [List.getElem?_append_right hle] at hf
    have hmem : f ∈ rest := List.getElem?_mem hf
    rw [hrest f hmem] at hcode
    exact Bool.false_ne_true hcode
  · rw [List.filter_append]
    have h1 : (L.map (fun s => specClassify (d.fetchErr s.Name) s.Name)).filter
          (fun f => perObjectCode f && errorOrWarning f)
        = L.map (fun s => specClassify (d.fetchErr s.Name) s.Name) := by
      rw [List.filter_eq_self]
      intro f hf
      rw [List.mem_map] at hf
      obtain ⟨s, _, rfl⟩ := hf
      simp [specClassify_perObject]
    have h2 : rest.filter (fun f => perObjectCode f && errorOrWarning f) = [] := by
      rw [List.filter_eq_nil_iff]
      intro f hf
      simp [hrest f hf]
    rw [h1, h2]
    simp

/-- C1, at a UNION-pass list of three entries with a duplicate, whose fetches end
in not-found, success and not-found: three per-object findings. -/
theorem union_pass_one_finding_per_entry_witness :
    ((exampleSCC.Check (exampleCollaborators
        ([{ Name := "privileged" }, { Name := "restricted" }, { Name := "privileged" }], none)
        ([], some timeoutError) (true, none))).findings.filter
      (fun f => perObjectCode f && errorOrWarning f)).length = 3 :=
  (union_pass_one_finding_per_entry
    (exampleCollaborators
      ([{ Name := "privileged" }, { Name := "restricted" }, { Name := "privileged" }], none)
      ([], some timeoutError) (true, none))
    exampleSCC
    [{ Name := "privileged" }, { Name := "restricted" }, { Name := "privileged" }] rfl).2.2

/-- C2: on a cluster where `privileged` is missing and the fetch of `anyuid` times
out, with both reconcile passes succeeding and returning these two objects, `Check`
reports both objects under the UNION pass (CSD1001, CSD1002) and again under the
REPLACE pass, as two DEBUG CSD1004 findings: a name whose fetch failed is not
recorded in `changedSCCNames`. -/
theorem debug_repeats_union_entry_after_failed_fetch :
    (exampleSCC.Check (exampleCollaborators
        ([{ Name := "privileged" }, { Name := "anyuid" }], none)
        ([{ Name := "privileged" }, { Name := "anyuid" }], none) (true, none))).findings
      = [ Finding.mk Severity.ERROR "CSD1001" none
            "scc/privileged is missing.\n\nUse the `oc adm policy reconcile-sccs` command to recreate sccs.",
          Finding.mk Severity.ERROR "CSD1002" (some timeoutError)
            "Unable to get scc/anyuid: request timed out",
          Finding.mk Severity.DEBUG "CSD1004" none
            "scc/privileged does not match defaults. Use the `oc adm policy reconcile-sccs --additive-only=false` command to check sccs.",
          Finding.mk Severity.DEBUG "CSD1004" none
            "scc/anyuid does not match defaults. Use the `oc adm policy reconcile-sccs --additive-only=false` command to check sccs." ]
      ∧ (exampleSCC.seenNames [{ Name := "privileged" }, { Name := "anyuid" }]).get "privileged"
          = false
      ∧ (exampleSCC.seenNames [{ Name := "privileged" }, { Name := "anyuid" }]).get "anyuid"
          = false := by
  refine ⟨?_, ?_, ?_⟩ <;> rfl

/-- C3: if the UNION-pass reconcile call returns an error, whatever list it returns
with it and whatever the fetches and the REPLACE pass would answer, the findings of
`Check` are exactly one ERROR CSD1000 whose cause is that error. -/
theorem union_failure_single_finding (c : Collaborators) (d : SCC) (e : GoError)
    (hU : (c.ChangedSCCs (d.reconcileOptions c)).2 = some e) :
    (d.Check c).findings
        = [Finding.mk Severity.ERROR "CSD1000" (some e) ("Error inspecting SCCs: " ++ e.text)]
      ∧ (d.Check c).findings.length = 1 := by
  have h := check_union_failed c d e hU
  rw [h]
  exact ⟨rfl, rfl⟩

/-- C3, at a reconciler whose UNION pass times out while returning a list, on a
cluster with missing objects and a REPLACE pass that would report one. -/
theorem union_failure_single_finding_witness :
    (exampleSCC.Check (exampleCollaborators
        ([{ Name := "privileged" }], some timeoutError)
        ([{ Name := "anyuid" }], none) (true, none))).findings
      = [Finding.mk Severity.ERROR "CSD1000" (some timeoutError)
          ("Error inspecting SCCs: " ++ timeoutError.text)] :=
  (union_failure_single_finding
    (exampleCollaborators ([{ Name := "privileged" }], some timeoutError)
      ([{ Name := "anyuid" }], none) (true, none))
    exampleSCC timeoutError rfl).1

/-- C4: when the UNION-pass reconcile succeeds with the list `L`, the finding at
each position `i` below its length is decided by the fetch of the `i`-th name: a
not-found error gives ERROR CSD1001 with no cause, another error `e` gives ERROR
CSD1002 with cause `e`, and a fetch without error gives WARNING CSD1003. This holds
at every position, whatever the earlier entries were classified as. -/
theorem union_entry_classified_by_fetch (c : Collaborators) (d : SCC)
    (L : List SecurityContextConstraints)
    (hU : c.ChangedSCCs (d.reconcileOptions c) = (L, none))
    (i : Nat) (hi : i < L.length) :
    (IsNotFound (d.SCCClient.Get (L[i]).Name {}).2 = true →
        (d.Check c).findings[i]?
          = some (Finding.mk Severity.ERROR "CSD1001" none
              ("scc/" ++ (L[i]).Name
                ++ " is missing.\n\nUse the `oc adm policy reconcile-sccs` command to recreate sccs.")))
      ∧ (∀ e : GoError, (d.SCCClient.Get (L[i]).Name {}).2 = some e →
          IsNotFound (some e) = false →
          (d.Check c).findings[i]?
            = some (Finding.mk Severity.ERROR "CSD1002" (some e)
                ("Unable to get scc/" ++ (L[i]).Name ++ ": " ++ e.text)))
      ∧ ((d.SCCClient.Get (L[i]).Name {}).2 = none →
          (d.Check c).findings[i]?
            = some (Finding.mk Severity.WARNING "CSD1003" none
                ("scc/" ++ (L[i]).Name
                  ++ " will be reconciled. Use the `oc adm policy reconcile-sccs` command to check sccs."))) := by
  obtain ⟨rest, hfs, _⟩ := check_union_ok_shape c d L hU
  have hget : (d.Check c).findings[i]?
      = some (specClassify (d.fetchErr (L[i]).Name) (L[i]).Name) := by
    rw [hfs, List.getElem?_append_left (by simpa using hi)]
    simp [List.getElem?_map, List.getElem?_eq_getElem hi]
  rw [hget]
  unfold SCC.fetchErr specClassify IsNotFound
  refine ⟨?_, ?_, ?_⟩
  · intro h
    cases hg : (d.SCCClient.Get (L[i]).Name {}).2 with
    | none => rw [hg] at h; simp at h
    | some e =>
      rw [hg] at h
      have hr : e.reason = StatusReasonNotFound := by simpa using h
      simp [hr, msgMissing]
  · intro e hg h
    have hr : ¬ e.reason = StatusReasonNotFound := by simpa using h
    simp [hg, hr, msgUnableToGet]
  · intro hg
    simp [hg, msgWillReconcile]

/-- C4, at the second entry of a list whose first entry is missing: the fetch of
`anyuid` times out and the second finding is CSD1002 with that cause. -/
theorem union_entry_classified_by_fetch_witness :
    (exampleSCC.Check (exampleCollaborators
        ([{ Name := "privileged" }, { Name := "anyuid" }, { Name := "restricted" }], none)
        ([], none) (true, none))).findings[1]?
      = some (Finding.mk Severity.ERROR "CSD1002" (some timeoutError)
          ("Unable to get scc/" ++ "anyuid" ++ ": " ++ timeoutError.text)) :=
  (union_entry_classified_by_fetch
    (exampleCollaborators
      ([{ Name := "privileged" }, { Name := "anyuid" }, { Name := "restricted" }], none)
      ([], none) (true, none))
    exampleSCC
    [{ Name := "privileged" }, { Name := "anyuid" }, { Name := "restricted" }] rfl
    1 (by decide)).2.1 timeoutError rfl rfl

/-! ## The REPLACE pass -/

/-- C5: when the UNION-pass reconcile succeeds with the list `L` and the REPLACE-pass
reconcile returns the error `e`, the findings of `Check` are the classifications of
the entries of `L`, one each and in order, followed by one ERROR CSD1000 with cause
`e`; none of them is a DEBUG or carries CSD1004. -/
theorem replace_failure_findings (c : Collaborators) (d : SCC)
    (L : List SecurityContextConstraints) (e : GoError)
    (hU : c.ChangedSCCs (d.reconcileOptions c) = (L, none))
    (hR : (c.ChangedSCCs (d.replaceOptions c)).2 = some e) :
    (d.Check c).findings
        = L.map (fun s => specClassify (d.SCCClient.Get s.Name {}).2 s.Name)
          ++ [Finding.mk Severity.ERROR "CSD1000" (some e) ("Error inspecting SCCs: " ++ e.text)]
      ∧ (d.Check c).findings.length = L.length + 1
      ∧ ∀ f ∈ (d.Check c).findings, f.severity ≠ Severity.DEBUG ∧ f.code ≠ "CSD1004" := by
  have h := check_replace_failed c d L e hU hR
  rw [h]
  refine ⟨rfl, by simp, ?_⟩
  intro f hf
  rw [List.mem_append] at hf
  cases hf with
  | inl hf =>
    rw [List.mem_map] at hf
    obtain ⟨s, _, rfl⟩ := hf
    have hp := specClassify_perObject (d.fetchErr s.Name) s.Name
    constructor
    · intro hsev
      have h2 := hp.2
      unfold errorOrWarning at h2
      rw [hsev] at h2
      exact Bool.false_ne_true h2
    · intro hcode
      have h1 := hp.1
      unfold perObjectCode at h1
      rw [hcode] at h1
      exact Bool.false_ne_true h1
  | inr hf =>
    rw [List.mem_singleton] at hf
    subst hf
    exact ⟨by simp, by simp⟩

/-- C5, at a UNION pass of two entries (one missing, one present) and a REPLACE pass
that times out: three findings. -/
theorem replace_failure_findings_witness :
    (exampleSCC.Check (exampleCollaborators
        ([{ Name := "privileged" }, { Name := "restricted" }], none)
        ([{ Name := "hostaccess" }], some timeoutError) (true, none))).findings.length
      = 2 + 1 :=
  (replace_failure_findings
    (exampleCollaborators ([{ Name := "privileged" }, { Name := "restricted" }], none)
      ([{ Name := "hostaccess" }], some timeoutError) (true, none))
    exampleSCC [{ Name := "privileged" }, { Name := "restricted" }] timeoutError rfl rfl).2.1

/-- C6: when both reconcile passes succeed, with lists `L` and `R`, the findings
after the first `L.length` ones are exactly one DEBUG CSD1004 for each entry of `R`
whose name the map `changedSCCNames` does not hold, in the order of `R`; they are
all DEBUG; and for a name `n` the map does not hold (in particular a name no entry
of `L` carries) the DEBUG findings for `n` are as many as the entries of `R` named
`n`. -/
theorem replace_pass_debug_findings (c : Collaborators) (d : SCC)
    (L R : List SecurityContextConstraints)
    (hU : c.ChangedSCCs (d.reconcileOptions c) = (L, none))
    (hR : c.ChangedSCCs (d.replaceOptions c) = (R, none)) :
    (d.Check c).findings.drop L.length
        = (R.filter (fun s => !(d.seenNames L).get s.Name)).map
            (fun s => Finding.mk Severity.DEBUG "CSD1004" none
              ("scc/" ++ s.Name
                ++ " does not match defaults. Use the `oc adm policy reconcile-sccs --additive-only=false` command to check sccs."))
      ∧ (∀ f ∈ (d.Check c).findings.drop L.length,
          f.severity = Severity.DEBUG ∧ f.code = "CSD1004")
      ∧ (∀ n : String, (d.seenNames L).get n = false →
          ((d.Check c).findings.filter (fun f => decide (f = specDebug n))).length
            = (R.filter (fun s => decide (s.Name = n))).length)
      ∧ (∀ n : String, (∀ s ∈ L, s.Name ≠ n) →
          ((d.Check c).findings.filter (fun f => decide (f = specDebug n))).length
            = (R.filter (fun s => decide (s.Name = n))).length) := by
  have h := check_both_ok c d L R hU hR
  have hdrop : (d.Check c).findings.drop L.length
      = (R.filter (fun s => !(d.seenNames L).get s.Name)).map (fun s => specDebug s.Name) := by
    rw [h]
    exact List.drop_left' (by simp)
  have hcount : ∀ n : String, (d.seenNames L).get n = false →
      ((d.Check c).findings.filter (fun f => decide (f = specDebug n))).length
        = (R.filter (fun s => decide (s.Name = n))).length := by
    intro n hn
    rw [h, List.filter_append, List.length_append, replaceLoop_count _ n hn R]
    have h0 : (L.map (fun s => specClassify (d.fetchErr s.Name) s.Name)).filter
        (fun f => decide (f = specDebug n)) = [] := by
      rw [List.filter_eq_nil_iff]
      intro f hf
      rw [List.mem_map] at hf
      obtain ⟨s, _, rfl⟩ := hf
      simp [specClassify_ne_specDebug]
    rw [h0]
    simp
  refine ⟨?_, ?_, hcount, ?_⟩
  · rw [hdrop]; rfl
  · intro f hf
    rw [hdrop, List.mem_map] at hf
    obtain ⟨s, _, rfl⟩ := hf
    exact ⟨rfl, rfl⟩
  · intro n hn
    exact hcount n (seenNames_of_not_mem d L n hn)

/-- C6, at a REPLACE pass that returns `hostaccess` twice and `restricted` once after
a UNION pass that returned `restricted` (which exists): two DEBUG findings for
`hostaccess`. -/
theorem replace_pass_debug_findings_witness :
    ((exampleSCC.Check (exampleCollaborators
        ([{ Name := "restricted" }], none)
        ([{ Name := "hostaccess" }, { Name := "restricted" }, { Name := "hostaccess" }], none)
        (true, none))).findings.filter (fun f => decide (f = specDebug "hostaccess"))).length
      = ([({ Name := "hostaccess" } : SecurityContextConstraints), { Name := "restricted" },
          { Name := "hostaccess" }].filter (fun s => decide (s.Name = "hostaccess"))).length :=
  (replace_pass_debug_findings
    (exampleCollaborators ([{ Name := "restricted" }], none)
      ([{ Name := "hostaccess" }, { Name := "restricted" }, { Name := "hostaccess" }], none)
      (true, none))
    exampleSCC [{ Name := "restricted" }]
    [{ Name := "hostaccess" }, { Name := "restricted" }, { Name := "hostaccess" }]
    rfl rfl).2.2.1 "hostaccess" rfl

/-! ## Scenarios -/

/-- C7: on a cluster where `B` is missing, with the UNION pass and the REPLACE pass
both returning exactly `B`, `Check` returns two findings, the ERROR CSD1001 for `B`
and then a DEBUG CSD1004 for `B`, not the ERROR alone. -/
theorem missing_object_scenario_two_findings :
    IsNotFound (exampleSCC.SCCClient.Get "B" {}).2 = true
      ∧ (exampleSCC.Check (exampleCollaborators
          ([{ Name := "B" }], none) ([{ Name := "B" }], none) (true, none))).findings
        = [ Finding.mk Severity.ERROR "CSD1001" none
              "scc/B is missing.\n\nUse the `oc adm policy reconcile-sccs` command to recreate sccs.",
            Finding.mk Severity.DEBUG "CSD1004" none
              "scc/B does not match defaults. Use the `oc adm policy reconcile-sccs --additive-only=false` command to check sccs." ] := by
  exact ⟨rfl, rfl⟩

/-- C8: when the UNION pass returns exactly one entry named `C`, the fetch of `C`
succeeds, and the REPLACE pass returns exactly one entry of the same name, the
findings of `Check` are exactly the WARNING CSD1003 for `C`. -/
theorem additive_drift_scenario (c : Collaborators) (d : SCC)
    (s1 s2 : SecurityContextConstraints) (hname : s2.Name = s1.Name)
    (hU : c.ChangedSCCs (d.reconcileOptions c) = ([s1], none))
    (hF : (d.SCCClient.Get s1.Name {}).2 = none)
    (hR : c.ChangedSCCs (d.replaceOptions c) = ([s2], none)) :
    (d.Check c).findings
      = [Finding.mk Severity.WARNING "CSD1003" none
          ("scc/" ++ s1.Name
            ++ " will be reconciled. Use the `oc adm policy reconcile-sccs` command to check sccs.")] := by
  have h := check_both_ok c d [s1] [s2] hU hR
  have hseen : (d.seenNames [s1]).get s2.Name = true := by
    unfold SCC.seenNames
    rw [unionLoop_names]
    simp [SCC.fetchErr, hF, hname]
  rw [h]
  simp [hseen, SCC.fetchErr, hF, specClassify, msgWillReconcile]

/-- C8, at the object `C` with one extra user in the live cluster. -/
theorem additive_drift_scenario_witness :
    (exampleSCC.Check (exampleCollaborators
        ([{ Name := "C", Users := ["extra"] }], none) ([{ Name := "C" }], none)
        (true, none))).findings
      = [Finding.mk Severity.WARNING "CSD1003" none
          ("scc/" ++ "C"
            ++ " will be reconciled. Use the `oc adm policy reconcile-sccs` command to check sccs.")] :=
  additive_drift_scenario
    (exampleCollaborators ([{ Name := "C", Users := ["extra"] }], none) ([{ Name := "C" }], none)
      (true, none))
    exampleSCC { Name := "C", Users := ["extra"] } { Name := "C" } rfl rfl rfl rfl

/-- C9: when the UNION pass returns no entry and the REPLACE pass returns exactly
one entry named `D`, the findings of `Check` are exactly the DEBUG CSD1004 for `D`,
whatever the client would answer to a fetch. -/
theorem non_additive_drift_scenario (c : Collaborators) (d : SCC)
    (s : SecurityContextConstraints)
    (hU : c.ChangedSCCs (d.reconcileOptions c) = ([], none))
    (hR : c.ChangedSCCs (d.replaceOptions c) = ([s], none)) :
    (d.Check c).findings
      = [Finding.mk Severity.DEBUG "CSD1004" none
          ("scc/" ++ s.Name
            ++ " does not match defaults. Use the `oc adm policy reconcile-sccs --additive-only=false` command to check sccs.")] := by
  have h := check_both_ok c d [] [s] hU hR
  have hseen : (d.seenNames []).get s.Name = false := rfl
  rw [h]
  simp [hseen, specDebug, msgNoMatch]

/-- C9, at the object `D`. -/
theorem non_additive_drift_scenario_witness :
    (exampleSCC.Check (exampleCollaborators ([], none) ([{ Name := "D" }], none)
        (true, none))).findings
      = [Finding.mk Severity.DEBUG "CSD1004" none
          ("scc/" ++ "D"
            ++ " does not match defaults. Use the `oc adm policy reconcile-sccs --additive-only=false` command to check sccs.")] :=
  non_additive_drift_scenario
    (exampleCollaborators ([], none) ([{ Name := "D" }], none) (true, none))
    exampleSCC { Name := "D" } rfl rfl

/-! ## The capability probe -/

/-- C10: without an access-review client `CanRun` returns false and an error,
whatever the probe would answer; with a client `sar` it returns exactly what
`util.UserCan` returns for `sar` and the attributes verb "list", group
`securityapi.GroupName`, resource "securitycontextconstraints" (every other
attribute empty), the error of the probe included. -/
theorem canRun_is_probe_result (c : Collaborators)
    (client : SecurityContextConstraintsInterface) (sar : SelfSubjectAccessReviewsGetter) :
    (SCC.mk client none).CanRun c
        = (false, some (GoError.mk "must have client.SubjectAccessReviews" ""))
      ∧ (SCC.mk client (some sar)).CanRun c
        = c.UserCan sar
            (ResourceAttributes.mk "" "list" c.GroupName "" "securitycontextconstraints" "" "")
      ∧ ((SCC.mk client (some sar)).CanRun c).2
        = (c.UserCan sar
            (ResourceAttributes.mk "" "list" c.GroupName "" "securitycontextconstraints" "" "")).2 :=
  ⟨rfl, rfl, rfl⟩

/-! ## Runs of `Check` -/

/-- The loop body of the first loop reads the client through the error of the fetch
only. -/
theorem unionStep_congr (d1 d2 : SCC)
    (hF : ∀ n : String, (d1.SCCClient.Get n {}).2 = (d2.SCCClient.Get n {}).2) :
    d1.unionStep = d2.unionStep := by
  funext st s
  unfold SCC.unionStep
  rw [hF]

/-- C11: the result of `Check` is a function of the collaborators' answers: two
runs whose UNION-pass results agree, whose REPLACE-pass results agree and whose
fetches end in the same error for every name return the same result, with the same
findings in the same order. A run takes no accumulator and no name map from an
earlier run: each starts from the empty ones. -/
theorem check_determined_by_answers (c1 c2 : Collaborators) (d1 d2 : SCC)
    (hU : c1.ChangedSCCs (d1.reconcileOptions c1) = c2.ChangedSCCs (d2.reconcileOptions c2))
    (hR : c1.ChangedSCCs (d1.replaceOptions c1) = c2.ChangedSCCs (d2.replaceOptions c2))
    (hF : ∀ n : String, (d1.SCCClient.Get n {}).2 = (d2.SCCClient.Get n {}).2) :
    d1.Check c1 = d2.Check c2
      ∧ (d1.Check c1).findings = (d2.Check c2).findings := by
  have hstep := unionStep_congr d1 d2 hF
  have h : d1.Check c1 = d2.Check c2 := by
    unfold SCC.replaceOptions at hR
    unfold SCC.Check
    simp only [hU, hR, hstep]
  exact ⟨h, by rw [h]⟩

/-- C11, at two runs on the same cluster through two clients (which return different
objects with the same errors) and with different capability probes. -/
theorem check_determined_by_answers_witness :
    (exampleSCC.Check (exampleCollaborators
        ([{ Name := "privileged" }, { Name := "restricted" }], none)
        ([{ Name := "hostaccess" }], none) (true, none))).findings
      = (exampleSCCB.Check (exampleCollaborators
        ([{ Name := "privileged" }, { Name := "restricted" }], none)
        ([{ Name := "hostaccess" }], none) (false, some timeoutError))).findings :=
  (check_determined_by_answers
    (exampleCollaborators ([{ Name := "privileged" }, { Name := "restricted" }], none)
      ([{ Name := "hostaccess" }], none) (true, none))
    (exampleCollaborators ([{ Name := "privileged" }, { Name := "restricted" }], none)
      ([{ Name := "hostaccess" }], none) (false, some timeoutError))
    exampleSCC exampleSCCB rfl rfl
    (by
      intro n
      simp only [exampleSCC, exampleSCCB, exampleClient, exampleClientB]
      split_ifs <;> rfl)).2

/-! ## The reconciler calls -/

/-- C15: `Check` (here with its call log) calls the reconciler first with
Confirmed false, Union true, output discarded, the diagnostic's client and the
default infrastructure namespace; if that call returns an error it makes no other
call; otherwise it calls the reconciler a second time with the same options except
Union false. The result is that of `Check`. -/
theorem reconciler_called_union_then_replace (c : Collaborators) (d : SCC) :
    (d.CheckTraced c).2 = d.Check c
      ∧ (d.CheckTraced c).1
        = (if (c.ChangedSCCs (ReconcileSCCOptions.mk false true Writer.Discard d.SCCClient
                c.DefaultOpenShiftInfraNamespace)).2.isSome then
            [ReconcileSCCOptions.mk false true Writer.Discard d.SCCClient
              c.DefaultOpenShiftInfraNamespace]
          else
            [ReconcileSCCOptions.mk false true Writer.Discard d.SCCClient
              c.DefaultOpenShiftInfraNamespace,
             ReconcileSCCOptions.mk false false Writer.Discard d.SCCClient
              c.DefaultOpenShiftInfraNamespace]) := by
  unfold SCC.CheckTraced SCC.Check SCC.reconcileOptions
  cases h1 : (c.ChangedSCCs (ReconcileSCCOptions.mk false true Writer.Discard d.SCCClient
      c.DefaultOpenShiftInfraNamespace)).2 with
  | some e => simp [h1]
  | none =>
    cases h2 : (c.ChangedSCCs (ReconcileSCCOptions.mk false false Writer.Discard d.SCCClient
        c.DefaultOpenShiftInfraNamespace)).2 with
    | some e => simp [h1, h2]
    | none => simp [h1, h2]

/-! ## Order and termination of the finding sequence -/

theorem specClassify_code_ne (err : Option GoError) (name : String) :
    (specClassify err name).code ≠ "CSD1000" := by
  intro h
  have h1 := (specClassify_perObject err name).1
  unfold perObjectCode at h1
  rw [h] at h1
  exact Bool.false_ne_true h1

theorem specClassify_code_warning (err : Option GoError) (name : String) :
    (specClassify err name).code = "CSD1003" ↔ err = none := by
  unfold specClassify
  cases err with
  | none => simp
  | some e =>
    by_cases hr : e.reason = StatusReasonNotFound
    · simp [hr]
    · simp [hr]

/-- The findings of `Check` are findings without the code CSD1000, followed by
nothing or by a single ERROR CSD1000. -/
theorem check_csd1000_shape (c : Collaborators) (d : SCC) :
    ∃ body tail : List Finding,
      (d.Check c).findings = body ++ tail
        ∧ (∀ f ∈ body, f.code ≠ "CSD1000")
        ∧ (tail = [] ∨ ∃ e : GoError,
            tail = [Finding.mk Severity.ERROR "CSD1000" (some e) (msgInspect e)]) := by
  cases hU : c.ChangedSCCs (d.reconcileOptions c) with
  | mk L err =>
    cases err with
    | some e =>
      refine ⟨[], _, ?_, ?_, Or.inr ⟨e, rfl⟩⟩
      · rw [check_union_failed c d e (by rw [hU])]; rfl
      · intro f hf; cases hf
    | none =>
      cases hR : c.ChangedSCCs (d.replaceOptions c) with
      | mk R err2 =>
        cases err2 with
        | some e =>
          refine ⟨_, _, check_replace_failed c d L e hU (by rw [hR]), ?_, Or.inr ⟨e, rfl⟩⟩
          intro f hf
          rw [List.mem_map] at hf
          obtain ⟨s, _, rfl⟩ := hf
          exact specClassify_code_ne _ _
        | none =>
          refine ⟨(d.Check c).findings, [], ?_, ?_, Or.inl rfl⟩
          · rw [List.append_nil]
          · intro f hf
            rw [check_both_ok c d L R hU hR, List.mem_append] at hf
            cases hf with
            | inl hf =>
              rw [List.mem_map] at hf
              obtain ⟨s, _, rfl⟩ := hf
              exact specClassify_code_ne _ _
            | inr hf =>
              rw [List.mem_map] at hf
              obtain ⟨s, _, rfl⟩ := hf
              simp [specDebug]

/-- C13: when both reconcile passes succeed, with lists `L` and `R`, the findings
are the classifications of the entries of `L`, in the order of `L`, followed by one
DEBUG CSD1004 for each entry of `R` whose name the map `changedSCCNames` does not
hold, in the order of `R`: finding `i` classifies entry `i` of `L`, every later
finding is a DEBUG CSD1004, and the DEBUG findings are those of a sublist of `R`. -/
theorem findings_two_phase_in_order (c : Collaborators) (d : SCC)
    (L R : List SecurityContextConstraints)
    (hU : c.ChangedSCCs (d.reconcileOptions c) = (L, none))
    (hR : c.ChangedSCCs (d.replaceOptions c) = (R, none)) :
    (d.Check c).findings
        = L.map (fun s => specClassify (d.SCCClient.Get s.Name {}).2 s.Name)
          ++ (R.filter (fun s => !(d.seenNames L).get s.Name)).map
              (fun s => specDebug s.Name)
      ∧ (∀ (i : Nat) (hi : i < L.length),
          (d.Check c).findings[i]?
            = some (specClassify (d.SCCClient.Get (L[i]).Name {}).2 (L[i]).Name))
      ∧ (∀ (i : Nat) (f : Finding), L.length ≤ i → (d.Check c).findings[i]? = some f →
          f.severity = Severity.DEBUG ∧ f.code = "CSD1004")
      ∧ (∃ sub : List SecurityContextConstraints, List.Sublist sub R
          ∧ (d.Check c).findings.drop L.length = sub.map (fun s => specDebug s.Name)) := by
  have h := check_both_ok c d L R hU hR
  refine ⟨h, ?_, ?_, ?_⟩
  · intro i hi
    rw [h, List.getElem?_append_left (by simpa using hi)]
    simp [List.getElem?_map, List.getElem?_eq_getElem hi, SCC.fetchErr]
  · intro i f hle hf
    have hle2 : (L.map (fun s => specClassify (d.fetchErr s.Name) s.Name)).length ≤ i := by
      simpa using hle
    rw [h, List.getElem?_append_right hle2] at hf
    have hmem := List.getElem?_mem hf
    rw [List.mem_map] at hmem
    obtain ⟨s, _, rfl⟩ := hmem
    exact ⟨rfl, rfl⟩
  · refine ⟨R.filter (fun s => !(d.seenNames L).get s.Name), List.filter_sublist R, ?_⟩
    rw [h]
    exact List.drop_left' (by simp)

/-- C13, at a UNION pass of two entries and a REPLACE pass of three, one of them
suppressed: two classifications, then the two DEBUG findings in the order of the
REPLACE list. -/
theorem findings_two_phase_in_order_witness :
    (exampleSCC.Check (exampleCollaborators
        ([{ Name := "privileged" }, { Name := "restricted" }], none)
        ([{ Name := "nonroot" }, { Name := "restricted" }, { Name := "hostaccess" }], none)
        (true, none))).findings
      = [({ Name := "privileged" } : SecurityContextConstraints), { Name := "restricted" }].map
          (fun s => specClassify (exampleSCC.SCCClient.Get s.Name {}).2 s.Name)
        ++ ([({ Name := "nonroot" } : SecurityContextConstraints), { Name := "restricted" },
              { Name := "hostaccess" }].filter
            (fun s => !(exampleSCC.seenNames
              [{ Name := "privileged" }, { Name := "restricted" }]).get s.Name)).map
            (fun s => specDebug s.Name) :=
  (findings_two_phase_in_order
    (exampleCollaborators ([{ Name := "privileged" }, { Name := "restricted" }], none)
      ([{ Name := "nonroot" }, { Name := "restricted" }, { Name := "hostaccess" }], none)
      (true, none))
    exampleSCC [{ Name := "privileged" }, { Name := "restricted" }]
    [{ Name := "nonroot" }, { Name := "restricted" }, { Name := "hostaccess" }] rfl rfl).1

/-- C14: for all collaborators, `Check` (a total function: it returns a result
whatever the reconciler and the fetches answer, errors included) returns findings
with at most one CSD1000, and a CSD1000 finding is the last of the sequence. -/
theorem at_most_one_csd1000_and_last (c : Collaborators) (d : SCC) :
    ((d.Check c).findings.filter (fun f => decide (f.code = "CSD1000"))).length ≤ 1
      ∧ (∀ (i : Nat) (f : Finding), (d.Check c).findings[i]? = some f →
          f.code = "CSD1000" → i + 1 = (d.Check c).findings.length) := by
  obtain ⟨body, tail, hfs, hbody, htail⟩ := check_csd1000_shape c d
  rw [hfs]
  have hb0 : body.filter (fun f => decide (f.code = "CSD1000")) = [] := by
    rw [List.filter_eq_nil_iff]
    intro f hf
    simp [hbody f hf]
  constructor
  · rw [List.filter_append, hb0, List.nil_append]
    calc (tail.filter (fun f => decide (f.code = "CSD1000"))).length
        ≤ tail.length := List.length_filter_le _ _
      _ ≤ 1 := by
        cases htail with
        | inl h0 => rw [h0]; simp
        | inr h1 => obtain ⟨e, h1⟩ := h1; rw [h1]; simp
  · intro i f hf hcode
    by_cases hlt : i < body.length
    · rw [List.getElem?_append_left hlt] at hf
      exact absurd hcode (hbody f (List.getElem?_mem hf))
    · have hle : body.length ≤ i := Nat.le_of_not_lt hlt
      rw [List.getElem?_append_right hle] at hf
      cases htail with
      | inl h0 => rw [h0] at hf; simp at hf
      | inr h1 =>
        obtain ⟨e, h1⟩ := h1
        rw [h1] at hf
        have hidx : i - body.length = 0 := by
          by_contra hne
          obtain ⟨k, hk⟩ := Nat.exists_eq_succ_of_ne_zero hne
          rw [hk] at hf
          simp at hf
        rw [h1, List.length_append, List.length_singleton]
        omega

/-- C14, at a run whose REPLACE pass fails after two UNION entries: the CSD1000 is
the third and last finding. -/
theorem at_most_one_csd1000_and_last_witness :
    2 + 1 = (exampleSCC.Check (exampleCollaborators
        ([{ Name := "privileged" }, { Name := "restricted" }], none)
        ([{ Name := "hostaccess" }], some timeoutError) (true, none))).findings.length :=
  (at_most_one_csd1000_and_last
    (exampleCollaborators ([{ Name := "privileged" }, { Name := "restricted" }], none)
      ([{ Name := "hostaccess" }], some timeoutError) (true, none))
    exampleSCC).2 2
    (Finding.mk Severity.ERROR "CSD1000" (some timeoutError) (msgInspect timeoutError))
    rfl rfl

/-! ## Which names suppress a DEBUG finding -/

/-- The map the first loop leaves holds a name exactly when some entry of that name
was fetched without error. -/
theorem seenNames_iff (d : SCC) (L : List SecurityContextConstraints) (n : String) :
    (d.seenNames L).get n = true
      ↔ ∃ u ∈ L, u.Name = n ∧ (d.SCCClient.Get u.Name {}).2 = none := by
  unfold SCC.seenNames
  rw [unionLoop_names]
  simp only [NameMap.get, NameMap.empty, Bool.false_or, List.any_eq_true, Bool.and_eq_true,
    decide_eq_true_eq, Option.isNone_iff_eq_none, SCC.fetchErr]

/-- C16: when both reconcile passes succeed, with lists `L` and `R`, the map
`changedSCCNames` holds a name exactly when some entry of `L` of that name was
fetched without error, which is exactly when the finding at that entry's position
is a CSD1003; the findings after the first `L.length` are one DEBUG CSD1004 for each
entry of `R` whose name has no such entry in `L`, in order; for an entry of `R` the
DEBUG finding of its name is among the findings if and only if its name has no such
entry; and the DEBUG findings number the entries of `R` without such an entry. -/
theorem debug_iff_no_fetched_union_entry (c : Collaborators) (d : SCC)
    (L R : List SecurityContextConstraints)
    (hU : c.ChangedSCCs (d.reconcileOptions c) = (L, none))
    (hR : c.ChangedSCCs (d.replaceOptions c) = (R, none)) :
    (∀ n : String, (d.seenNames L).get n = true
        ↔ ∃ u ∈ L, u.Name = n ∧ (d.SCCClient.Get u.Name {}).2 = none)
      ∧ (∀ n : String, (d.seenNames L).get n = true
        ↔ ∃ (i : Nat) (hi : i < L.length), (L[i]).Name = n
            ∧ ∃ f : Finding, (d.Check c).findings[i]? = some f ∧ f.code = "CSD1003")
      ∧ (d.Check c).findings.drop L.length
        = (R.filter (fun s =>
            !(L.any (fun u => decide (u.Name = s.Name)
                && (d.SCCClient.Get u.Name {}).2.isNone)))).map
          (fun s => Finding.mk Severity.DEBUG "CSD1004" none
            ("scc/" ++ s.Name
              ++ " does not match defaults. Use the `oc adm policy reconcile-sccs --additive-only=false` command to check sccs."))
      ∧ (∀ s ∈ R, (specDebug s.Name ∈ (d.Check c).findings
          ↔ ¬ ∃ u ∈ L, u.Name = s.Name ∧ (d.SCCClient.Get u.Name {}).2 = none))
      ∧ ((d.Check c).findings.filter (fun f => decide (f.severity = Severity.DEBUG))).length
        = (R.filter (fun s =>
            !(L.any (fun u => decide (u.Name = s.Name)
                && (d.SCCClient.Get u.Name {}).2.isNone)))).length := by
  have h := check_both_ok c d L R hU hR
  have hseen : ∀ n : String, (d.seenNames L).get n
      = L.any (fun u => decide (u.Name = n) && (d.SCCClient.Get u.Name {}).2.isNone) := by
    intro n
    unfold SCC.seenNames
    rw [unionLoop_names]
    simp [NameMap.get, NameMap.empty, SCC.fetchErr]
  have hfilter : R.filter (fun s => !(d.seenNames L).get s.Name)
      = R.filter (fun s => !(L.any (fun u => decide (u.Name = s.Name)
          && (d.SCCClient.Get u.Name {}).2.isNone))) := by
    congr 1
    funext s
    rw [hseen]
  have hget : ∀ (i : Nat) (hi : i < L.length), (d.Check c).findings[i]?
      = some (specClassify (d.fetchErr (L[i]).Name) (L[i]).Name) := by
    intro i hi
    rw [h, List.getElem?_append_left (by simpa using hi)]
    simp [List.getElem?_map, List.getElem?_eq_getElem hi]
  refine ⟨seenNames_iff d L, ?_, ?_, ?_, ?_⟩
  · intro n
    rw [seenNames_iff]
    constructor
    · rintro ⟨u, hu, hn, hf⟩
      obtain ⟨i, hi, rfl⟩ := List.getElem_of_mem hu
      refine ⟨i, hi, hn, _, hget i hi, ?_⟩
      rw [specClassify_code_warning]
      exact hf
    · rintro ⟨i, hi, hn, f, hf, hcode⟩
      rw [hget i hi] at hf
      have hfe : specClassify (d.fetchErr (L[i]).Name) (L[i]).Name = f := Option.some.inj hf
      rw [← hfe, specClassify_code_warning] at hcode
      exact ⟨L[i], List.getElem_mem hi, hn, hcode⟩
  · rw [h, ← hfilter]
    exact List.drop_left' (by simp)
  · intro s _
    rw [← seenNames_iff d L s.Name, h, List.mem_append]
    constructor
    · intro hmem
      cases hmem with
      | inl hl =>
        rw [List.mem_map] at hl
        obtain ⟨u, _, hu⟩ := hl
        exact absurd hu (specClassify_ne_specDebug _ _ _)
      | inr hr =>
        rw [List.mem_map] at hr
        obtain ⟨t, ht, hteq⟩ := hr
        rw [specDebug_eq_iff] at hteq
        rw [List.mem_filter] at ht
        rw [← hteq]
        simpa using ht.2
    · intro hns
      right
      rw [List.mem_map]
      refine ⟨s, ?_, rfl⟩
      rw [List.mem_filter]
      exact ⟨by assumption, by simpa using hns⟩
  · rw [h, List.filter_append, List.length_append, ← hfilter]
    have h1 : (L.map (fun s => specClassify (d.fetchErr s.Name) s.Name)).filter
        (fun f => decide (f.severity = Severity.DEBUG)) = [] := by
      rw [List.filter_eq_nil_iff]
      intro f hf
      rw [List.mem_map] at hf
      obtain ⟨s, _, rfl⟩ := hf
      have h2 := (specClassify_perObject (d.fetchErr s.Name) s.Name).2
      unfold errorOrWarning at h2
      intro hsev
      have hsev2 : (specClassify (d.fetchErr s.Name) s.Name).severity = Severity.DEBUG := by
        simpa using hsev
      rw [hsev2] at h2
      exact Bool.false_ne_true h2
    have h3 : ((R.filter (fun s => !(d.seenNames L).get s.Name)).map
        (fun s => specDebug s.Name)).filter (fun f => decide (f.severity = Severity.DEBUG))
        = (R.filter (fun s => !(d.seenNames L).get s.Name)).map
          (fun s => specDebug s.Name) := by
      rw [List.filter_eq_self]
      intro f hf
      rw [List.mem_map] at hf
      obtain ⟨s, _, rfl⟩ := hf
      rfl
    rw [h1, h3]
    simp

/-- C16, at a UNION pass that returns `privileged` (missing) and `restricted`
(present) and a REPLACE pass that returns both and `hostaccess`: two DEBUG
findings, for `privileged` and for `hostaccess`. -/
theorem debug_iff_no_fetched_union_entry_witness :
    ((exampleSCC.Check (exampleCollaborators
        ([{ Name := "privileged" }, { Name := "restricted" }], none)
        ([{ Name := "privileged" }, { Name := "restricted" }, { Name := "hostaccess" }], none)
        (true, none))).findings.filter
          (fun f => decide (f.severity = Severity.DEBUG))).length
      = ([({ Name := "privileged" } : SecurityContextConstraints), { Name := "restricted" },
            { Name := "hostaccess" }].filter (fun s =>
          !([({ Name := "privileged" } : SecurityContextConstraints),
              { Name := "restricted" }].any (fun u => decide (u.Name = s.Name)
                && (exampleSCC.SCCClient.Get u.Name {}).2.isNone)))).length :=
  (debug_iff_no_fetched_union_entry
    (exampleCollaborators ([{ Name := "privileged" }, { Name := "restricted" }], none)
      ([{ Name := "privileged" }, { Name := "restricted" }, { Name := "hostaccess" }], none)
      (true, none))
    exampleSCC [{ Name := "privileged" }, { Name := "restricted" }]
    [{ Name := "privileged" }, { Name := "restricted" }, { Name := "hostaccess" }]
    rfl rfl).2.2.2.2

end SCCDiag

namespace ImageAPI

/-- C12: for every string, `Kind` and `Resource` return the pair with group
"image.openshift.io" and the argument unchanged, and `LegacyKind` and
`LegacyResource` return the pair with the empty group and the argument unchanged;
the results carry no version. -/
theorem kind_and_resource_group_qualified (k r : String) :
    Kind k = GroupKind.mk "image.openshift.io" k
      ∧ Resource r = GroupResource.mk "image.openshift.io" r
      ∧ LegacyKind k = GroupKind.mk "" k
      ∧ LegacyResource r = GroupResource.mk "" r :=
  ⟨rfl, rfl, rfl, rfl⟩

end ImageAPI
